import Mathlib

/-!
Verification of the raw storage chunk core
(`pdsl_core/src/storage/chunk/raw_chunk.rs`).

The core is a fixed-capacity, offset-addressed storage abstraction over a
sparse key-addressed byte store.  We embed the Rust code shallowly:

* `Key` — the 32-byte storage key type with its offset derivation
  (external to the shown source; modelled from the spec).
* `ChunkError` — the out-of-bounds error (its definition lives in
  `chunk/error.rs`, not shown; modelled from the spec).
* `Store` / `ContractEnv` — the external key-value store collaborator,
  modelled as a total function from keys to optional byte sequences,
  with explicit state passing.
* `RawChunk`, `RawChunkCell` — translated line by line from the source;
  methods that take `&mut self` in Rust thread the store state
  explicitly and return it (the chunk fields themselves are never
  mutated by the source, which the embedding mirrors by keeping the
  chunk a read-only argument; `execOp` below re-packages this as a
  state machine so that preservation of `key`/`capacity` is provable
  over arbitrary operation sequences).
-/

/-- Byte sequences are opaque to this layer: we model them as lists of
byte values. -/
abbrev Bytes := List Nat

/-- Modelled from the spec: the key type is an opaque fixed-width
(32-byte, hence 256-bit) identifier into the key-value store; its exact
encoding is an external contract.  We model it as a natural number below
`2 ^ 256`. -/
abbrev Key := Nat

/-- Size of the fixed-width address space of `Key` (32 bytes). -/
def keySpace : Nat := 2 ^ 256

/-- Modelled from the spec: the offset-derivation function
`Key::with_offset(base, n)` is external to the shown source.  The spec
requires it to be deterministic and injective over `n ∈ [0, capacity)`
for a fixed base, and permits integer addition over a big fixed-width
address space; we model it as addition wrapping at the 256-bit width. -/
def Key.with_offset (base : Key) (n : Nat) : Key :=
  (base + n) % keySpace

/-- Modelled from the spec (error type is in `chunk/error.rs`, not
shown): the single recoverable error kind `OutOfBounds`, carrying the
requested offset and the chunk capacity.  `ChunkError::access_out_of_bounds(n, cap)`
is the constructor used by the source. -/
inductive ChunkError where
  | accessOutOfBounds (requested : Nat) (capacity : Nat)
deriving DecidableEq, Repr

/-- Result alias used throughout `raw_chunk.rs`. -/
abbrev ChunkResult (α : Type) := Except ChunkError α

/-- Modelled from the spec: the external key-value store collaborator is
a sparse map from keys to optional byte sequences; we pass its state
explicitly. -/
def Store := Key → Option Bytes

namespace ContractEnv

/-- Modelled from the spec: `load(address) -> optional bytes`. -/
def load (s : Store) (k : Key) : Option Bytes :=
  s k

/-- Modelled from the spec: `store(address, bytes)`, an unconditional
write that always succeeds. -/
def store (s : Store) (k : Key) (bytes : Bytes) : Store :=
  fun q => if q = k then some bytes else s q

/-- Modelled from the spec: `clear(address)`, unconditional removal. -/
def clear (s : Store) (k : Key) : Store :=
  fun q => if q = k then none else s q

end ContractEnv

/-- A chunk of raw cells (struct `RawChunk`): a base key and a capacity.
The Rust field is a `NonZeroU32` produced by `NonZeroU32::new_unchecked`,
which performs no check; we model the field as a plain natural number
and track the non-zero invariant in theorems.  The `NonCloneMarker` is a
zero-sized marker with no runtime content and is omitted. -/
structure RawChunk where
  key : Key
  capacity : Nat
deriving DecidableEq, Repr

/-- A single cell within a chunk of raw cells (struct `RawChunkCell`):
just the derived key. -/
structure RawChunkCell where
  key : Key
deriving DecidableEq, Repr

namespace RawChunkCell

/-- `RawChunkCell::new_unchecked`: creates a cell from a key, with no
aliasing check (unsafe in Rust, a plain constructor here). -/
def new_unchecked (key : Key) : RawChunkCell :=
  ⟨key⟩

/-- `RawChunkCell::load`: `ContractEnv::load(self.key)`. -/
def load (cell : RawChunkCell) (s : Store) : Option Bytes :=
  ContractEnv.load s cell.key

/-- `RawChunkCell::store`: `ContractEnv::store(self.key, bytes)`. -/
def store (cell : RawChunkCell) (s : Store) (bytes : Bytes) : Store :=
  ContractEnv.store s cell.key bytes

/-- `RawChunkCell::clear`: `ContractEnv::clear(self.key)`. -/
def clear (cell : RawChunkCell) (s : Store) : Store :=
  ContractEnv.clear s cell.key

end RawChunkCell

namespace RawChunk

/-- `RawChunk::new_unchecked`: stores the key and capacity with no
checks (`NonZeroU32::new_unchecked` does not test for zero). -/
def new_unchecked (key : Key) (capacity : Nat) : RawChunk :=
  ⟨key, capacity⟩

/-- `RawChunk::offset_key`: the single bounds check `n >= self.capacity()`
followed by `Key::with_offset(self.key, n)`. -/
def offset_key (c : RawChunk) (n : Nat) : ChunkResult Key :=
  if n ≥ c.capacity then
    Except.error (ChunkError.accessOutOfBounds n c.capacity)
  else
    Except.ok (Key.with_offset c.key n)

/-- `RawChunk::cell_at`: `self.offset_key(n).map(RawChunkCell::new_unchecked)`. -/
def cell_at (c : RawChunk) (n : Nat) : ChunkResult RawChunkCell :=
  (c.offset_key n).map (fun key => RawChunkCell.new_unchecked key)

/-- `RawChunk::load`: `self.offset_key(n).map(|key| ContractEnv::load(key))`. -/
def load (c : RawChunk) (s : Store) (n : Nat) : ChunkResult (Option Bytes) :=
  (c.offset_key n).map (fun key => ContractEnv.load s key)

/-- `RawChunk::store`: `self.offset_key(n).map(|key| ContractEnv::store(key, bytes))`.
The Rust method mutates the ambient store; we return the result paired
with the (possibly updated) store state. -/
def store (c : RawChunk) (s : Store) (n : Nat) (bytes : Bytes) :
    ChunkResult Unit × Store :=
  match c.offset_key n with
  | Except.error e => (Except.error e, s)
  | Except.ok key => (Except.ok (), ContractEnv.store s key bytes)

/-- `RawChunk::clear`: `self.offset_key(n).map(|key| ContractEnv::clear(key))`. -/
def clear (c : RawChunk) (s : Store) (n : Nat) :
    ChunkResult Unit × Store :=
  match c.offset_key n with
  | Except.error e => (Except.error e, s)
  | Except.ok key => (Except.ok (), ContractEnv.clear s key)

/-- Modelled from the spec: the checked constructor ("returns failure if
capacity is zero") advertised in the design notes is not part of the
shown source file, which only contains the unchecked unsafe
constructor; per the spec it fails recoverably on zero capacity and
succeeds otherwise. -/
def new (key : Key) (capacity : Nat) : Option RawChunk :=
  if capacity = 0 then none else some (new_unchecked key capacity)

end RawChunk

/-- One public indexed operation of a chunk, for reasoning about
arbitrary operation sequences. -/
inductive ChunkOp where
  | load (n : Nat)
  | store (n : Nat) (bytes : Bytes)
  | clear (n : Nat)
  | cellAt (n : Nat)

/-- Executes one operation on a chunk-and-store state.  `load` and
`cell_at` read only; `store` and `clear` may update the store.  No
operation writes the chunk's fields, mirroring the source, whose
methods never assign to `self.key` or `self.capacity`. -/
def execOp : RawChunk × Store → ChunkOp → RawChunk × Store
  | (c, s), ChunkOp.load _ => (c, s)
  | (c, s), ChunkOp.store n bytes => (c, (RawChunk.store c s n bytes).2)
  | (c, s), ChunkOp.clear n => (c, (RawChunk.clear c s n).2)
  | (c, s), ChunkOp.cellAt _ => (c, s)

/-- Executes a sequence of operations from left to right. -/
def execOps (st : RawChunk × Store) (ops : List ChunkOp) : RawChunk × Store :=
  ops.foldl execOp st

/-- The empty store used by concrete witnesses. -/
def emptyStore : Store := fun _ => none

/-- A concrete chunk used by concrete witnesses: base key `0x42`,
capacity `5`. -/
def chunk5 : RawChunk := RawChunk.new_unchecked 66 5

/-! ## Helper lemmas -/

/-- Wrapping offset derivation is injective on any offset range that
fits inside the key space. -/
theorem with_offset_inj_small (base cap : Nat) (h : base + cap ≤ keySpace)
    (a b : Nat) (ha : a < cap) (hb : b < cap)
    (e : Key.with_offset base a = Key.with_offset base b) : a = b := by
  unfold Key.with_offset at e
  have h1 : base + a < keySpace := by omega
  have h2 : base + b < keySpace := by omega
  rw [Nat.mod_eq_of_lt h1, Nat.mod_eq_of_lt h2] at e
  exact Nat.add_left_cancel e

/-- A single operation never changes the chunk component of the state. -/
theorem execOp_fst (c : RawChunk) (s : Store) (op : ChunkOp) :
    (execOp (c, s) op).1 = c := by
  cases op <;> rfl

/-- No operation sequence ever changes the chunk component of the state. -/
theorem execOps_fst (c : RawChunk) (s : Store) (ops : List ChunkOp) :
    (execOps (c, s) ops).1 = c := by
  induction ops generalizing s with
  | nil => rfl
  | cons op ops ih =>
      cases op with
      | load n => exact ih s
      | store n b => exact ih ((RawChunk.store c s n b).2)
      | clear n => exact ih ((RawChunk.clear c s n).2)
      | cellAt n => exact ih s

/-! ## Claim theorems -/

/-- C1: for every offset `n ≥ capacity`, each of `load`, `store`,
`clear` and `cell_at` fails with `OutOfBounds` carrying `(n, capacity)`
and performs no access to the underlying store (the write operations
return the store state unchanged, and the error results do not mention
the store); for `n < capacity` none of them returns an error.  Since
the check is the single comparison `n ≥ capacity`, `n = capacity` is
rejected (the witness exercises exactly that boundary). -/
theorem rawChunk_bounds_check (c : RawChunk) (s : Store) (n : Nat) (bytes : Bytes) :
    (c.capacity ≤ n →
      c.load s n = Except.error (ChunkError.accessOutOfBounds n c.capacity) ∧
      c.store s n bytes = (Except.error (ChunkError.accessOutOfBounds n c.capacity), s) ∧
      c.clear s n = (Except.error (ChunkError.accessOutOfBounds n c.capacity), s) ∧
      c.cell_at n = Except.error (ChunkError.accessOutOfBounds n c.capacity)) ∧
    (n < c.capacity →
      c.load s n = Except.ok (ContractEnv.load s (Key.with_offset c.key n)) ∧
      (c.store s n bytes).1 = Except.ok () ∧
      (c.clear s n).1 = Except.ok () ∧
      c.cell_at n = Except.ok (RawChunkCell.new_unchecked (Key.with_offset c.key n))) := by
  constructor
  · intro h
    simp [RawChunk.load, RawChunk.store, RawChunk.clear, RawChunk.cell_at,
      RawChunk.offset_key, Except.map, h]
  · intro h
    simp [RawChunk.load, RawChunk.store, RawChunk.clear, RawChunk.cell_at,
      RawChunk.offset_key, Except.map, Nat.not_le.mpr h]

/-- C1 witness: on the concrete capacity-5 chunk, offset `5 = capacity`
is rejected by all four operations and offset `4` is accepted. -/
theorem rawChunk_bounds_check_witness :
    (chunk5.load emptyStore 5 = Except.error (ChunkError.accessOutOfBounds 5 5) ∧
     chunk5.store emptyStore 5 [7] = (Except.error (ChunkError.accessOutOfBounds 5 5), emptyStore) ∧
     chunk5.clear emptyStore 5 = (Except.error (ChunkError.accessOutOfBounds 5 5), emptyStore) ∧
     chunk5.cell_at 5 = Except.error (ChunkError.accessOutOfBounds 5 5)) ∧
    (chunk5.load emptyStore 4 = Except.ok (ContractEnv.load emptyStore (Key.with_offset chunk5.key 4)) ∧
     (chunk5.store emptyStore 4 [7]).1 = Except.ok () ∧
     (chunk5.clear emptyStore 4).1 = Except.ok () ∧
     chunk5.cell_at 4 = Except.ok (RawChunkCell.new_unchecked (Key.with_offset chunk5.key 4))) :=
  ⟨(rawChunk_bounds_check chunk5 emptyStore 5 [7]).1 (by decide),
   (rawChunk_bounds_check chunk5 emptyStore 4 [7]).2 (by decide)⟩

/-- C2: for every in-bounds offset `n` and byte sequence `b`,
`store(n, b)` followed by `load(n)` on the resulting store returns
exactly the bytes just written. -/
theorem store_then_load (c : RawChunk) (s : Store) (n : Nat) (b : Bytes)
    (h : n < c.capacity) :
    c.load (c.store s n b).2 n = Except.ok (some b) := by
  simp [RawChunk.load, RawChunk.store, RawChunk.offset_key, Except.map,
    Nat.not_le.mpr h, ContractEnv.load, ContractEnv.store]

/-- C2 witness: round-trip at offset 3 of the concrete chunk. -/
theorem store_then_load_witness :
    chunk5.load (chunk5.store emptyStore 3 [1, 2]).2 3 = Except.ok (some [1, 2]) :=
  store_then_load chunk5 emptyStore 3 [1, 2] (by decide)

/-- C3: `store(n, b)` then `clear(n)` then `load(n)` observes absence. -/
theorem store_clear_then_load (c : RawChunk) (s : Store) (n : Nat) (b : Bytes)
    (h : n < c.capacity) :
    c.load (c.clear (c.store s n b).2 n).2 n = Except.ok none := by
  simp [RawChunk.load, RawChunk.store, RawChunk.clear, RawChunk.offset_key,
    Except.map, Nat.not_le.mpr h, ContractEnv.load, ContractEnv.store, ContractEnv.clear]

/-- C3 witness: store then clear then load at offset 2. -/
theorem store_clear_then_load_witness :
    chunk5.load (chunk5.clear (chunk5.store emptyStore 2 [8, 9]).2 2).2 2 = Except.ok none :=
  store_clear_then_load chunk5 emptyStore 2 [8, 9] (by decide)

/-- C4: assuming the external offset derivation is injective on
`[0, capacity)` (stated as a hypothesis, as the spec treats it as an
external contract), a `store` at offset `i` does not change `load` at
any other in-bounds offset `j ≠ i`. -/
theorem store_frame (c : RawChunk) (s : Store) (i j : Nat) (b : Bytes)
    (hi : i < c.capacity) (hj : j < c.capacity) (hne : i ≠ j)
    (hinj : ∀ a b, a < c.capacity → b < c.capacity →
      Key.with_offset c.key a = Key.with_offset c.key b → a = b) :
    c.load (c.store s i b).2 j = c.load s j := by
  have hk : Key.with_offset c.key j ≠ Key.with_offset c.key i := by
    intro e
    exact hne ((hinj j i hj hi e).symm)
  simp [RawChunk.load, RawChunk.store, RawChunk.offset_key, Except.map,
    Nat.not_le.mpr hi, Nat.not_le.mpr hj, ContractEnv.load, ContractEnv.store, hk]

/-- C4 witness: storing at offset 1 leaves the load at offset 2
unchanged on the concrete chunk, whose wrapping derivation is injective
on `[0, 5)`. -/
theorem store_frame_witness :
    chunk5.load (chunk5.store emptyStore 1 [9]).2 2 = chunk5.load emptyStore 2 :=
  store_frame chunk5 emptyStore 1 2 [9] (by decide) (by decide) (by decide)
    (fun a b ha hb e =>
      with_offset_inj_small 66 5 (by norm_num [keySpace]) a b ha hb e)

/-- C5: for every in-bounds `n`, `cell_at(n)` succeeds with the cell
bound to the derived address `with_offset(base, n)`, and on that cell
`load` / `store` / `clear` behave exactly as the chunk's bounds-checked
`load(n)` / `store(n, ·)` / `clear(n)` on any store state — with no
further bounds check, since the cell operations are total. -/
theorem cell_at_spec (c : RawChunk) (s : Store) (n : Nat) (b : Bytes)
    (h : n < c.capacity) :
    c.cell_at n = Except.ok (RawChunkCell.new_unchecked (Key.with_offset c.key n)) ∧
    c.load s n = Except.ok ((RawChunkCell.new_unchecked (Key.with_offset c.key n)).load s) ∧
    c.store s n b = (Except.ok (), (RawChunkCell.new_unchecked (Key.with_offset c.key n)).store s b) ∧
    c.clear s n = (Except.ok (), (RawChunkCell.new_unchecked (Key.with_offset c.key n)).clear s) := by
  refine ⟨?_, ?_, ?_, ?_⟩ <;>
    simp [RawChunk.cell_at, RawChunk.load, RawChunk.store, RawChunk.clear,
      RawChunk.offset_key, Except.map, Nat.not_le.mpr h, RawChunkCell.new_unchecked,
      RawChunkCell.load, RawChunkCell.store, RawChunkCell.clear]

/-- C5 witness: cell behaviour agrees with chunk behaviour at offset 0. -/
theorem cell_at_spec_witness :
    chunk5.cell_at 0 = Except.ok (RawChunkCell.new_unchecked (Key.with_offset chunk5.key 0)) ∧
    chunk5.load emptyStore 0 = Except.ok ((RawChunkCell.new_unchecked (Key.with_offset chunk5.key 0)).load emptyStore) ∧
    chunk5.store emptyStore 0 [3] = (Except.ok (), (RawChunkCell.new_unchecked (Key.with_offset chunk5.key 0)).store emptyStore [3]) ∧
    chunk5.clear emptyStore 0 = (Except.ok (), (RawChunkCell.new_unchecked (Key.with_offset chunk5.key 0)).clear emptyStore) :=
  cell_at_spec chunk5 emptyStore 0 [3] (by decide)

/-- C6: the checked constructor (modelled from the spec, absent from the
shown source file) fails recoverably on capacity zero and succeeds for
every capacity at least one, returning the same chunk the unchecked
unsafe constructor builds. -/
theorem new_checked_spec (k : Key) (cap : Nat) :
    (cap = 0 → RawChunk.new k cap = none) ∧
    (1 ≤ cap → RawChunk.new k cap = some (RawChunk.new_unchecked k cap)) := by
  constructor
  · intro h
    simp [RawChunk.new, h]
  · intro h
    have h0 : cap ≠ 0 := by omega
    simp [RawChunk.new, h0]

/-- C6 witness: construction fails at capacity 0 and succeeds at
capacity 5. -/
theorem new_checked_spec_witness :
    RawChunk.new 66 0 = none ∧
    RawChunk.new 66 5 = some (RawChunk.new_unchecked 66 5) :=
  ⟨(new_checked_spec 66 0).1 rfl, (new_checked_spec 66 5).2 (by decide)⟩

/-- C7: a later `store` at the same in-bounds slot unconditionally
overwrites the earlier one: `store(n, b1)` then `store(n, b2)` then
`load(n)` returns `b2`. -/
theorem store_store_then_load (c : RawChunk) (s : Store) (n : Nat)
    (b1 b2 : Bytes) (h : n < c.capacity) :
    c.load (c.store (c.store s n b1).2 n b2).2 n = Except.ok (some b2) := by
  simp [RawChunk.load, RawChunk.store, RawChunk.offset_key, Except.map,
    Nat.not_le.mpr h, ContractEnv.load, ContractEnv.store]

/-- C7 witness: overwrite at offset 1. -/
theorem store_store_then_load_witness :
    chunk5.load (chunk5.store (chunk5.store emptyStore 1 [1]).2 1 [2]).2 1 =
      Except.ok (some [2]) :=
  store_store_then_load chunk5 emptyStore 1 [1] [2] (by decide)

/-- C8: over a fresh store — one holding no value at any of the chunk's
derived addresses — `load(n)` returns `Ok(None)` for every in-bounds
`n`. -/
theorem load_fresh_none (c : RawChunk) (s : Store)
    (hfresh : ∀ i, i < c.capacity → s (Key.with_offset c.key i) = none)
    (n : Nat) (hn : n < c.capacity) :
    c.load s n = Except.ok none := by
  simp [RawChunk.load, RawChunk.offset_key, Except.map, Nat.not_le.mpr hn,
    ContractEnv.load, hfresh n hn]

/-- C8 witness: every load on the concrete chunk over the empty store is
`Ok(None)`; shown at offset 2. -/
theorem load_fresh_none_witness :
    chunk5.load emptyStore 2 = Except.ok none :=
  load_fresh_none chunk5 emptyStore (fun _ _ => rfl) 2 (by decide)

/-- C9: `capacity` is a pure function of the chunk alone (its embedding
takes no store state), it returns the value fixed at construction, and
every sequence of public operations — succeeding or failing — leaves
the chunk's base key and capacity unchanged, so a chunk constructed
with capacity at least one keeps capacity at least one forever. -/
theorem capacity_invariant (c : RawChunk) (s : Store) (ops : List ChunkOp)
    (h : 1 ≤ c.capacity) :
    (RawChunk.new_unchecked c.key c.capacity).capacity = c.capacity ∧
    (execOps (c, s) ops).1.key = c.key ∧
    (execOps (c, s) ops).1.capacity = c.capacity ∧
    1 ≤ (execOps (c, s) ops).1.capacity := by
  have hf := execOps_fst c s ops
  rw [hf]
  exact ⟨rfl, rfl, rfl, h⟩

/-- C9 witness: a concrete mixed operation sequence, including failing
out-of-bounds ones, preserves key and capacity of the concrete chunk. -/
theorem capacity_invariant_witness :
    (RawChunk.new_unchecked chunk5.key chunk5.capacity).capacity = chunk5.capacity ∧
    (execOps (chunk5, emptyStore)
      [ChunkOp.store 0 [1], ChunkOp.clear 0, ChunkOp.load 3,
       ChunkOp.cellAt 2, ChunkOp.store 9 [5], ChunkOp.clear 7]).1.key = chunk5.key ∧
    (execOps (chunk5, emptyStore)
      [ChunkOp.store 0 [1], ChunkOp.clear 0, ChunkOp.load 3,
       ChunkOp.cellAt 2, ChunkOp.store 9 [5], ChunkOp.clear 7]).1.capacity = chunk5.capacity ∧
    1 ≤ (execOps (chunk5, emptyStore)
      [ChunkOp.store 0 [1], ChunkOp.clear 0, ChunkOp.load 3,
       ChunkOp.cellAt 2, ChunkOp.store 9 [5], ChunkOp.clear 7]).1.capacity :=
  capacity_invariant chunk5 emptyStore
    [ChunkOp.store 0 [1], ChunkOp.clear 0, ChunkOp.load 3,
     ChunkOp.cellAt 2, ChunkOp.store 9 [5], ChunkOp.clear 7] (by decide)

/-- C10: storing the empty byte sequence at an in-bounds slot and
loading it back yields `Ok(Some([]))`, which is distinct from
`Ok(None)`: an empty stored value is observably different from an
absent one. -/
theorem store_empty_then_load (c : RawChunk) (s : Store) (n : Nat)
    (h : n < c.capacity) :
    c.load (c.store s n []).2 n = Except.ok (some []) ∧
    c.load (c.store s n []).2 n ≠ Except.ok none := by
  have hl : c.load (c.store s n []).2 n = Except.ok (some []) := by
    simp [RawChunk.load, RawChunk.store, RawChunk.offset_key, Except.map,
      Nat.not_le.mpr h, ContractEnv.load, ContractEnv.store]
  refine ⟨hl, ?_⟩
  rw [hl]
  intro e
  exact Option.noConfusion (Except.ok.inj e)

/-- C10 witness: empty-value round trip at offset 4. -/
theorem store_empty_then_load_witness :
    chunk5.load (chunk5.store emptyStore 4 []).2 4 = Except.ok (some []) ∧
    chunk5.load (chunk5.store emptyStore 4 []).2 4 ≠ Except.ok none :=
  store_empty_then_load chunk5 emptyStore 4 (by decide)
